import Mathlib

/-!
Verification of the multi-provider price aggregation and alerting engine of
the Crypto-Prices repository (`crypto_price_checker.py`, `telegram_alerts.py`).

Python floats and `time.time()` values are modelled as rationals (`ℚ`);
`Optional[float]` becomes `Option ℚ`.  A provider result dict
`Dict[str, Optional[float]]` is modelled by its sequence of values in
insertion order, `List (Option ℚ)`, since every computation in the code under
scrutiny only uses `prices.values()`.  The external Telegram sink
(`bot.send_alert` / `bot.send_message`) is an opaque boolean-returning call;
it enters each embedded function as an explicit `sendOk : Bool` input.
-/

namespace CryptoPrices

/-- Python `max(price_list)` on a non-empty list (junk value `0` on `[]`,
where Python would raise). -/
def listMax : List ℚ → ℚ
  | [] => 0
  | x :: xs => xs.foldl max x

/-- Python `min(price_list)` on a non-empty list (junk value `0` on `[]`,
where Python would raise). -/
def listMin : List ℚ → ℚ
  | [] => 0
  | x :: xs => xs.foldl min x

/-- Python `statistics.mean`, exact over rationals: sum divided by length. -/
def qmean (l : List ℚ) : ℚ := l.sum / (l.length : ℚ)

/-- `valid_prices = [p for p in prices.values() if p is not None]`
(also the dict comprehension `{k: v for k, v in prices.items() if v is not None}`,
restricted to its values). -/
def validPrices (prices : List (Option ℚ)) : List ℚ := prices.filterMap id

/-- Python truthiness of an `Optional[float]`: `None` and `0.0` are falsy. -/
def pyTruthy : Option ℚ → Bool
  | none => false
  | some v => v != 0

/-- `AlertConfig` dataclass of `telegram_alerts.py` (lines 40-49), with the
dataclass defaults. -/
structure AlertConfig where
  spread_threshold : ℚ := 3/10
  price_above : Option ℚ := none
  price_below : Option ℚ := none
  price_change_pct : ℚ := 2
  price_change_window : ℚ := 300
  cooldown_seconds : ℚ := 300
  status_interval : Option ℚ := none
  deriving Repr, DecidableEq

/-- `AlertState` dataclass of `telegram_alerts.py` (lines 51-59). -/
structure AlertState where
  last_spread_alert : ℚ := 0
  last_price_above_alert : ℚ := 0
  last_price_below_alert : ℚ := 0
  last_price_change_alert : ℚ := 0
  last_status_update : ℚ := 0
  price_history : List (ℚ × ℚ) := []
  deriving Repr, DecidableEq

/-! ### Aggregation statistics (`crypto_price_checker.py`) -/

/-- The statistics block of `display_results` (`crypto_price_checker.py`
lines 367-379): with at least two valid prices it computes
`avg = mean`, `spread = max - min`, and
`spread_pct = (spread / avg_price) * 100 if avg_price > 0 else 0`;
with fewer it prints a notice and computes nothing (`none` here). -/
def display_results_stats (prices : List (Option ℚ)) : Option (ℚ × ℚ × ℚ) :=
  let valid := validPrices prices
  if 2 ≤ valid.length then
    let avg := qmean valid
    let spread := listMax valid - listMin valid
    let spread_pct := if 0 < avg then spread / avg * 100 else 0
    some (avg, spread, spread_pct)
  else none

/-- The statistics of `append_to_csv` (`crypto_price_checker.py` lines
424-429):
`avg_price = mean(valid_prices) if valid_prices else None`,
`spread = max - min if len(valid_prices) >= 2 else None`,
`spread_pct = (spread / avg_price * 100) if spread and avg_price else None`
(note the Python truthiness test: a spread or average of exactly `0.0`
behaves like `None` in the last line). -/
def append_to_csv_stats (prices : List (Option ℚ)) :
    Option ℚ × Option ℚ × Option ℚ :=
  let valid := validPrices prices
  let avg : Option ℚ := if valid.isEmpty then none else some (qmean valid)
  let spread : Option ℚ :=
    if 2 ≤ valid.length then some (listMax valid - listMin valid) else none
  let spread_pct : Option ℚ :=
    if pyTruthy spread && pyTruthy avg then
      some (spread.getD 0 / avg.getD 0 * 100)
    else none
  (avg, spread, spread_pct)

/-- One CSV cell of `append_to_csv` (lines 442-446): a statistic is
formatted only when truthy, else the empty string.  `none` models the blank
cell, `some v` a written value. -/
def csvCell (x : Option ℚ) : Option ℚ := if pyTruthy x then x else none

/-- The three statistic cells (`average`, `spread`, `spread_pct`) of the row
written by `append_to_csv` (lines 442-446). -/
def append_to_csv_cells (prices : List (Option ℚ)) :
    Option ℚ × Option ℚ × Option ℚ :=
  let s := append_to_csv_stats prices
  (csvCell s.1, csvCell s.2.1, csvCell s.2.2)

/-- One cycle of `run_continuous_monitoring` (`crypto_price_checker.py`
lines 531-540): when at least one valid price arrived the row is appended to
the CSV (`some` of its statistic cells), otherwise only
`"⚠ No data received"` is printed and nothing is recorded (`none`). -/
def run_continuous_monitoring_row (prices : List (Option ℚ)) :
    Option (Option ℚ × Option ℚ × Option ℚ) :=
  if (validPrices prices).isEmpty then none
  else some (append_to_csv_cells prices)

/-! ### Telegram alert engine (`telegram_alerts.py`) -/

/-- Whether one cycle of `run_alert_monitor` (`telegram_alerts.py` lines
497-502) processes the fetched prices at all: with no valid price the loop
prints `"⚠ No data received"` and `continue`s, skipping every alert check
and every history update. -/
def run_alert_monitor_processed (prices : List (Option ℚ)) : Bool :=
  !(validPrices prices).isEmpty

/-- The `spread_pct` computed by `run_alert_monitor` (line 505):
`((max - min) / avg) * 100 if len(valid_prices) > 1 else 0`.
For a single valid price this is the number `0`, not an absent value; it is
surfaced in the cycle's display line and passed to `send_status_update`. -/
def run_alert_monitor_spread_pct (valid : List ℚ) : ℚ :=
  if 1 < valid.length then (listMax valid - listMin valid) / qmean valid * 100
  else 0

/-- `check_spread_alert` (`telegram_alerts.py` lines 222-278).  Returns the
boolean result together with the updated state.  `now` stands for
`time.time()`, `sendOk` for the result of `bot.send_alert`.
(When the average is exactly `0` Python would raise `ZeroDivisionError` in
the `spread_pct` line; rational division by zero yields `0` here, a point no
claim exercises.) -/
def check_spread_alert (prices : List (Option ℚ)) (config : AlertConfig)
    (state : AlertState) (sendOk : Bool) (now : ℚ) : Bool × AlertState :=
  let valid := validPrices prices
  if valid.length < 2 then (false, state)
  else
    let spread := listMax valid - listMin valid
    let avg_price := qmean valid
    let spread_pct := spread / avg_price * 100
    if spread_pct < config.spread_threshold then (false, state)
    else if now - state.last_spread_alert < config.cooldown_seconds then
      (false, state)
    else if sendOk then (true, { state with last_spread_alert := now })
    else (false, state)

/-- The price-above block of `check_price_threshold_alerts`
(`telegram_alerts.py` lines 293-304):
`if config.price_above and avg_price > config.price_above:` (Python
truthiness: `None` and `0.0` both disable the rule), then
`if now - state.last_price_above_alert >= config.cooldown_seconds:`, then
the send with the timestamp updated only on success. -/
def check_price_above (avg_price : ℚ) (config : AlertConfig)
    (state : AlertState) (sendOk : Bool) (now : ℚ) : Bool × AlertState :=
  match config.price_above with
  | none => (false, state)
  | some a =>
    if a ≠ 0 ∧ a < avg_price then
      if config.cooldown_seconds ≤ now - state.last_price_above_alert then
        if sendOk then (true, { state with last_price_above_alert := now })
        else (false, state)
      else (false, state)
    else (false, state)

/-- The price-below block of `check_price_threshold_alerts`
(`telegram_alerts.py` lines 306-317), symmetric to the price-above block. -/
def check_price_below (avg_price : ℚ) (config : AlertConfig)
    (state : AlertState) (sendOk : Bool) (now : ℚ) : Bool × AlertState :=
  match config.price_below with
  | none => (false, state)
  | some b =>
    if b ≠ 0 ∧ avg_price < b then
      if config.cooldown_seconds ≤ now - state.last_price_below_alert then
        if sendOk then (true, { state with last_price_below_alert := now })
        else (false, state)
      else (false, state)
    else (false, state)

/-- `check_price_threshold_alerts` (`telegram_alerts.py` lines 281-319):
both threshold blocks run in sequence at the same `now`; `sent` is true when
either fired.  The two `bot.send_alert` calls are independent, hence two
`sendOk` inputs. -/
def check_price_threshold_alerts (avg_price : ℚ) (config : AlertConfig)
    (state : AlertState) (sendOkAbove sendOkBelow : Bool) (now : ℚ) :
    Bool × AlertState :=
  let r1 := check_price_above avg_price config state sendOkAbove now
  let r2 := check_price_below avg_price config r1.2 sendOkBelow now
  (r1.1 || r2.1, r2.2)

/-- The history update of `check_price_change_alert` (`telegram_alerts.py`
lines 333-338): append `(now, avg_price)`, then keep exactly the entries
with `t > now - config.price_change_window`. -/
def updatedHistory (hist : List (ℚ × ℚ)) (now avg_price window : ℚ) :
    List (ℚ × ℚ) :=
  (hist ++ [(now, avg_price)]).filter (fun tp => decide (now - window < tp.1))

/-- `check_price_change_alert` (`telegram_alerts.py` lines 322-372).  The
trimmed history is stored back into the state on every path; the change is
measured from the oldest retained entry `state.price_history[0][1]`. -/
def check_price_change_alert (avg_price : ℚ) (config : AlertConfig)
    (state : AlertState) (sendOk : Bool) (now : ℚ) : Bool × AlertState :=
  let hist := updatedHistory state.price_history now avg_price
      config.price_change_window
  let state1 := { state with price_history := hist }
  if hist.length < 2 then (false, state1)
  else
    let oldest_price := hist.headI.2
    let change_pct := (avg_price - oldest_price) / oldest_price * 100
    if |change_pct| < config.price_change_pct then (false, state1)
    else if now - state.last_price_change_alert < config.cooldown_seconds then
      (false, state1)
    else if sendOk then (true, { state1 with last_price_change_alert := now })
    else (false, state1)

/-- `send_status_update` (`telegram_alerts.py` lines 375-425): disabled only
by `config.status_interval is None`; otherwise it fires whenever
`now - state.last_status_update` has reached the interval and the send
succeeds. -/
def send_status_update (config : AlertConfig) (state : AlertState)
    (sendOk : Bool) (now : ℚ) : Bool × AlertState :=
  match config.status_interval with
  | none => (false, state)
  | some si =>
    if now - state.last_status_update < si then (false, state)
    else if sendOk then (true, { state with last_status_update := now })
    else (false, state)

/-! ### Symbol / currency normalization (`crypto_price_checker.py`) -/

/-- Python `str.lower()` on the ASCII symbols/currencies this program
handles: lower-case every character. -/
def strLower (s : String) : String := ⟨s.data.map Char.toLower⟩

/-- `COINGECKO_SYMBOL_MAP` (`crypto_price_checker.py` lines 42-63). -/
def COINGECKO_SYMBOL_MAP : List (String × String) :=
  [("btc", "bitcoin"), ("eth", "ethereum"), ("sol", "solana"),
   ("ada", "cardano"), ("xrp", "ripple"), ("doge", "dogecoin"),
   ("dot", "polkadot"), ("matic", "polygon"), ("link", "chainlink"),
   ("avax", "avalanche-2"), ("ltc", "litecoin"), ("uni", "uniswap"),
   ("atom", "cosmos"), ("xlm", "stellar"), ("algo", "algorand"),
   ("near", "near"), ("ftm", "fantom"), ("aave", "aave"),
   ("bnb", "binancecoin"), ("shib", "shiba-inu")]

/-- `BINANCE_QUOTE_MAP` (`crypto_price_checker.py` lines 66-73). -/
def BINANCE_QUOTE_MAP : List (String × String) :=
  [("usd", "USDT"), ("eur", "EUR"), ("gbp", "GBP"),
   ("usdt", "USDT"), ("usdc", "USDC"), ("busd", "BUSD")]

/-- The CoinGecko id used by `fetch_coingecko` (`crypto_price_checker.py`
line 170): `COINGECKO_SYMBOL_MAP.get(symbol.lower(), symbol.lower())` — an
unknown symbol falls back to the lowercased symbol itself. -/
def coingecko_coin_id (symbol : String) : String :=
  ((COINGECKO_SYMBOL_MAP.lookup (strLower symbol)).getD (strLower symbol))

/-- The Binance quote suffix used by `fetch_binance` (`crypto_price_checker.py`
line 200): `BINANCE_QUOTE_MAP.get(base_currency.lower(), 'USDT')` — an
unmapped quote currency defaults to `"USDT"`. -/
def binance_quote (base_currency : String) : String :=
  ((BINANCE_QUOTE_MAP.lookup (strLower base_currency)).getD "USDT")

/-- Modelled from the spec: "Provider A (CoinGecko-style): symbol → full
asset slug via a static lookup table; unknown symbols fail with
`UnsupportedSymbol`."  The failing normalization the spec describes —
`none` for an unknown symbol instead of a fallback identifier.  Used only
to compare the spec's words with `coingecko_coin_id`. -/
def coingecko_coin_id_spec (symbol : String) : Option String :=
  COINGECKO_SYMBOL_MAP.lookup (strLower symbol)

/-- Modelled from the spec: "unmapped quote currencies fail with
`UnsupportedQuote`."  `none` for an unmapped quote instead of a default
suffix.  Used only to compare the spec's words with `binance_quote`. -/
def binance_quote_spec (base_currency : String) : Option String :=
  BINANCE_QUOTE_MAP.lookup (strLower base_currency)


/-! ### Basic facts about `listMax` / `listMin` -/

theorem foldl_max_mem (xs : List ℚ) (a : ℚ) : xs.foldl max a ∈ a :: xs := by
  induction xs generalizing a with
  | nil => simp
  | cons x xs ih =>
    have h := ih (max a x)
    simp only [List.foldl_cons, List.mem_cons] at h ⊢
    rcases h with h | h
    · rcases max_choice a x with hm | hm
      · exact Or.inl (h.trans hm)
      · exact Or.inr (Or.inl (h.trans hm))
    · exact Or.inr (Or.inr h)

theorem le_foldl_max (xs : List ℚ) (a : ℚ) : ∀ y ∈ a :: xs, y ≤ xs.foldl max a := by
  induction xs generalizing a with
  | nil => intro y hy; simp only [List.mem_cons, List.not_mem_nil, or_false] at hy
           simp [hy]
  | cons x xs ih =>
    intro y hy
    simp only [List.mem_cons] at hy
    simp only [List.foldl_cons]
    rcases hy with rfl | rfl | hy
    · exact le_trans (le_max_left y x) (ih (max y x) _ (List.mem_cons_self _ _))
    · exact le_trans (le_max_right a y) (ih (max a y) _ (List.mem_cons_self _ _))
    · exact ih (max a x) y (List.mem_cons_of_mem _ hy)

theorem foldl_min_mem (xs : List ℚ) (a : ℚ) : xs.foldl min a ∈ a :: xs := by
  induction xs generalizing a with
  | nil => simp
  | cons x xs ih =>
    have h := ih (min a x)
    simp only [List.foldl_cons, List.mem_cons] at h ⊢
    rcases h with h | h
    · rcases min_choice a x with hm | hm
      · exact Or.inl (h.trans hm)
      · exact Or.inr (Or.inl (h.trans hm))
    · exact Or.inr (Or.inr h)

theorem foldl_min_le (xs : List ℚ) (a : ℚ) : ∀ y ∈ a :: xs, xs.foldl min a ≤ y := by
  induction xs generalizing a with
  | nil => intro y hy; simp only [List.mem_cons, List.not_mem_nil, or_false] at hy
           simp [hy]
  | cons x xs ih =>
    intro y hy
    simp only [List.mem_cons] at hy
    simp only [List.foldl_cons]
    rcases hy with rfl | rfl | hy
    · exact le_trans (ih (min y x) _ (List.mem_cons_self _ _)) (min_le_left y x)
    · exact le_trans (ih (min a y) _ (List.mem_cons_self _ _)) (min_le_right a y)
    · exact ih (min a x) y (List.mem_cons_of_mem _ hy)

theorem listMax_mem {l : List ℚ} (h : l ≠ []) : listMax l ∈ l := by
  cases l with
  | nil => exact absurd rfl h
  | cons x xs => exact foldl_max_mem xs x

theorem le_listMax {l : List ℚ} : ∀ y ∈ l, y ≤ listMax l := by
  cases l with
  | nil => intro y hy; exact absurd hy (List.not_mem_nil y)
  | cons x xs => exact le_foldl_max xs x

theorem listMin_mem {l : List ℚ} (h : l ≠ []) : listMin l ∈ l := by
  cases l with
  | nil => exact absurd rfl h
  | cons x xs => exact foldl_min_mem xs x

theorem listMin_le {l : List ℚ} : ∀ y ∈ l, listMin l ≤ y := by
  cases l with
  | nil => intro y hy; exact absurd hy (List.not_mem_nil y)
  | cons x xs => exact foldl_min_le xs x

/-- C1: with at least 2 valid provider prices the average is the arithmetic
mean of the valid prices, the spread is their maximum minus their minimum,
and the spread percentage is spread / average × 100 with the division-by-zero
guard (average 0 gives spread_pct 0); on the concrete scenario
{100000, 100200, 99800} the result is average 100000, spread 400,
spread_pct 0.4 = 2/5.  (Provider prices are non-negative.) -/
theorem spread_stats_spec (prices : List (Option ℚ))
    (h2 : 2 ≤ (validPrices prices).length)
    (hpos : ∀ x ∈ validPrices prices, 0 ≤ x) :
    (∃ avg spread spread_pct,
      display_results_stats prices = some (avg, spread, spread_pct)
      ∧ avg = (validPrices prices).sum / ((validPrices prices).length : ℚ)
      ∧ spread = listMax (validPrices prices) - listMin (validPrices prices)
      ∧ listMax (validPrices prices) ∈ validPrices prices
      ∧ (∀ x ∈ validPrices prices, x ≤ listMax (validPrices prices))
      ∧ listMin (validPrices prices) ∈ validPrices prices
      ∧ (∀ x ∈ validPrices prices, listMin (validPrices prices) ≤ x)
      ∧ (avg = 0 → spread_pct = 0)
      ∧ (avg ≠ 0 → spread_pct = spread / avg * 100))
    ∧ display_results_stats [some 100000, some 100200, some 99800] =
        some (100000, 400, 2/5) := by
  constructor
  · have hne : validPrices prices ≠ [] := by
      intro h
      rw [h] at h2
      simp at h2
    have hd : display_results_stats prices =
        some (qmean (validPrices prices),
          listMax (validPrices prices) - listMin (validPrices prices),
          if 0 < qmean (validPrices prices) then
            (listMax (validPrices prices) - listMin (validPrices prices)) /
              qmean (validPrices prices) * 100
          else 0) := by
      simp only [display_results_stats]
      rw [if_pos h2]
    refine ⟨_, _, _, hd, rfl, rfl, listMax_mem hne, le_listMax,
      listMin_mem hne, listMin_le, ?_, ?_⟩
    · intro h0
      rw [if_neg]
      rw [h0]
      exact lt_irrefl 0
    · intro h0
      have hnn : 0 ≤ qmean (validPrices prices) := by
        unfold qmean
        apply div_nonneg (List.sum_nonneg hpos)
        exact_mod_cast Nat.zero_le _
      rw [if_pos (lt_of_le_of_ne hnn (Ne.symm h0))]
  · norm_num [display_results_stats, validPrices, qmean, listMax, listMin,
      List.filterMap_cons, id_eq, List.foldl_cons, List.foldl_nil,
      List.sum_cons, List.sum_nil]

/-- Witness for `spread_stats_spec`: the concrete three-provider scenario. -/
theorem spread_stats_spec_witness :
    display_results_stats [some 100000, some 100200, some 99800] =
      some (100000, 400, 2/5) :=
  (spread_stats_spec [some 100000, some 100200, some 99800]
    (by decide) (by decide)).2


/-- C2: every alert rule is gated by the shared cooldown against its own
last-fired timestamp: re-evaluated at `T0 + C - 1` it does not fire (whatever
the condition and the sink outcome), and at `T0 + C` it fires as soon as its
condition holds and the sink accepts; a firing touches only the rule's own
timestamp. -/
theorem cooldown_gate (prices : List (Option ℚ)) (avg_price : ℚ)
    (config : AlertConfig) (state : AlertState) (b : Bool) (a bl : ℚ)
    (h2 : 2 ≤ (validPrices prices).length)
    (hsp : config.spread_threshold ≤
      (listMax (validPrices prices) - listMin (validPrices prices)) /
        qmean (validPrices prices) * 100)
    (hA : config.price_above = some a) (hA0 : a ≠ 0) (hAlt : a < avg_price)
    (hB : config.price_below = some bl) (hB0 : bl ≠ 0) (hBlt : avg_price < bl)
    (hH2 : 2 ≤ (updatedHistory state.price_history
      (state.last_price_change_alert + config.cooldown_seconds) avg_price
      config.price_change_window).length)
    (hCh : config.price_change_pct ≤
      |(avg_price - (updatedHistory state.price_history
          (state.last_price_change_alert + config.cooldown_seconds) avg_price
          config.price_change_window).headI.2) /
        (updatedHistory state.price_history
          (state.last_price_change_alert + config.cooldown_seconds) avg_price
          config.price_change_window).headI.2 * 100|) :
    (check_spread_alert prices config state b
      (state.last_spread_alert + config.cooldown_seconds - 1)).1 = false
    ∧ (check_spread_alert prices config state true
      (state.last_spread_alert + config.cooldown_seconds)).1 = true
    ∧ (check_price_above avg_price config state b
      (state.last_price_above_alert + config.cooldown_seconds - 1)).1 = false
    ∧ (check_price_above avg_price config state true
      (state.last_price_above_alert + config.cooldown_seconds)).1 = true
    ∧ (check_price_below avg_price config state b
      (state.last_price_below_alert + config.cooldown_seconds - 1)).1 = false
    ∧ (check_price_below avg_price config state true
      (state.last_price_below_alert + config.cooldown_seconds)).1 = true
    ∧ (check_price_change_alert avg_price config state b
      (state.last_price_change_alert + config.cooldown_seconds - 1)).1 = false
    ∧ (check_price_change_alert avg_price config state true
      (state.last_price_change_alert + config.cooldown_seconds)).1 = true
    ∧ ((check_spread_alert prices config state true
        (state.last_spread_alert + config.cooldown_seconds)).2.last_price_above_alert
          = state.last_price_above_alert
      ∧ (check_spread_alert prices config state true
        (state.last_spread_alert + config.cooldown_seconds)).2.last_price_below_alert
          = state.last_price_below_alert
      ∧ (check_spread_alert prices config state true
        (state.last_spread_alert + config.cooldown_seconds)).2.last_price_change_alert
          = state.last_price_change_alert
      ∧ (check_spread_alert prices config state true
        (state.last_spread_alert + config.cooldown_seconds)).2.last_status_update
          = state.last_status_update)
    ∧ ((check_price_above avg_price config state true
        (state.last_price_above_alert + config.cooldown_seconds)).2.last_spread_alert
          = state.last_spread_alert
      ∧ (check_price_above avg_price config state true
        (state.last_price_above_alert + config.cooldown_seconds)).2.last_price_below_alert
          = state.last_price_below_alert) := by
  have hb1 : state.last_spread_alert + config.cooldown_seconds - 1 -
      state.last_spread_alert < config.cooldown_seconds := by linarith
  have hb2 : ¬ (state.last_spread_alert + config.cooldown_seconds -
      state.last_spread_alert < config.cooldown_seconds) := by
    push_neg; linarith
  have hb3 : ¬ (config.cooldown_seconds ≤
      state.last_price_above_alert + config.cooldown_seconds - 1 -
        state.last_price_above_alert) := by
    push_neg; linarith
  have hb4 : config.cooldown_seconds ≤
      state.last_price_above_alert + config.cooldown_seconds -
        state.last_price_above_alert := by linarith
  have hb5 : ¬ (config.cooldown_seconds ≤
      state.last_price_below_alert + config.cooldown_seconds - 1 -
        state.last_price_below_alert) := by
    push_neg; linarith
  have hb6 : config.cooldown_seconds ≤
      state.last_price_below_alert + config.cooldown_seconds -
        state.last_price_below_alert := by linarith
  have hb7 : state.last_price_change_alert + config.cooldown_seconds - 1 -
      state.last_price_change_alert < config.cooldown_seconds := by linarith
  have hb8 : ¬ (state.last_price_change_alert + config.cooldown_seconds -
      state.last_price_change_alert < config.cooldown_seconds) := by
    push_neg; linarith
  refine ⟨?_, ?_, ?_, ?_, ?_, ?_, ?_, ?_, ?_, ?_⟩
  · simp only [check_spread_alert]
    split_ifs <;> simp_all
  · simp only [check_spread_alert]
    rw [if_neg (by omega), if_neg (not_lt.mpr hsp), if_neg hb2, if_pos trivial]
  · simp only [check_price_above, hA]
    rw [if_pos ⟨hA0, hAlt⟩, if_neg hb3]
  · simp only [check_price_above, hA]
    rw [if_pos ⟨hA0, hAlt⟩, if_pos hb4, if_pos trivial]
  · simp only [check_price_below, hB]
    rw [if_pos ⟨hB0, hBlt⟩, if_neg hb5]
  · simp only [check_price_below, hB]
    rw [if_pos ⟨hB0, hBlt⟩, if_pos hb6, if_pos trivial]
  · simp only [check_price_change_alert]
    split_ifs <;> simp_all
  · simp only [check_price_change_alert]
    rw [if_neg (by omega), if_neg (not_lt.mpr hCh), if_neg hb8, if_pos trivial]
  · simp only [check_spread_alert]
    rw [if_neg (by omega), if_neg (not_lt.mpr hsp), if_neg hb2, if_pos trivial]
    exact ⟨rfl, rfl, rfl, rfl⟩
  · simp only [check_price_above, hA]
    rw [if_pos ⟨hA0, hAlt⟩, if_pos hb4, if_pos trivial]
    exact ⟨rfl, rfl⟩


/-- Concrete configuration for exercising the cooldown gate: defaults plus
both price thresholds set. -/
def cfgC2 : AlertConfig := { price_above := some 50, price_below := some 1000 }

/-- Concrete state for exercising the cooldown gate: each rule has its own
last-fired time; one retained history sample inside the change window. -/
def stC2 : AlertState :=
  { last_spread_alert := 1000, last_price_above_alert := 2000,
    last_price_below_alert := 3000, last_price_change_alert := 4000,
    price_history := [(4200, 50)] }

/-- Witness for `cooldown_gate` at a concrete two-provider cycle. -/
theorem cooldown_gate_witness :
    (check_spread_alert [some 100, some 104] cfgC2 stC2 false
      (stC2.last_spread_alert + cfgC2.cooldown_seconds - 1)).1 = false
    ∧ (check_spread_alert [some 100, some 104] cfgC2 stC2 true
      (stC2.last_spread_alert + cfgC2.cooldown_seconds)).1 = true
    ∧ (check_price_change_alert 102 cfgC2 stC2 true
      (stC2.last_price_change_alert + cfgC2.cooldown_seconds)).1 = true := by
  have h := cooldown_gate [some 100, some 104] 102 cfgC2 stC2 false 50 1000
    (by decide)
    (by norm_num [cfgC2, validPrices, qmean, listMax, listMin,
      List.filterMap_cons, id_eq, List.foldl_cons, List.foldl_nil,
      List.sum_cons, List.sum_nil])
    rfl (by norm_num) (by norm_num)
    rfl (by norm_num) (by norm_num)
    (by norm_num [cfgC2, stC2, updatedHistory, List.filter_cons,
      List.filter_nil, decide_eq_true_eq])
    (by norm_num [cfgC2, stC2, updatedHistory, List.filter_cons,
      List.filter_nil, decide_eq_true_eq, List.headI])
  exact ⟨h.1, h.2.1, h.2.2.2.2.2.2.2.1⟩

/-- C3: a failed delivery leaves the rule's cooldown timestamp untouched
(for the spread and threshold rules the whole state), and a rule that fired
— which requires a successful send — has its own timestamp stamped `now`. -/
theorem delivery_failure_preserves_cooldown (prices : List (Option ℚ))
    (avg_price : ℚ) (config : AlertConfig) (state : AlertState) (now : ℚ) :
    (check_spread_alert prices config state false now).1 = false
    ∧ (check_spread_alert prices config state false now).2 = state
    ∧ (∀ b, (check_spread_alert prices config state b now).1 = true →
        (check_spread_alert prices config state b now).2.last_spread_alert = now)
    ∧ (check_price_threshold_alerts avg_price config state false false now).1 = false
    ∧ (check_price_threshold_alerts avg_price config state false false now).2 = state
    ∧ (∀ b, (check_price_above avg_price config state b now).1 = true →
        (check_price_above avg_price config state b now).2.last_price_above_alert = now)
    ∧ (∀ b, (check_price_below avg_price config state b now).1 = true →
        (check_price_below avg_price config state b now).2.last_price_below_alert = now)
    ∧ (check_price_change_alert avg_price config state false now).1 = false
    ∧ (check_price_change_alert avg_price config state false now).2.last_price_change_alert
        = state.last_price_change_alert
    ∧ (∀ b, (check_price_change_alert avg_price config state b now).1 = true →
        (check_price_change_alert avg_price config state b now).2.last_price_change_alert
          = now) := by
  refine ⟨?_, ?_, ?_, ?_, ?_, ?_, ?_, ?_, ?_, ?_⟩
  · simp only [check_spread_alert]; split_ifs <;> simp_all
  · simp only [check_spread_alert]; split_ifs <;> simp_all
  · intro b hb
    revert hb
    simp only [check_spread_alert]
    split_ifs <;> simp_all
  · rcases hA : config.price_above with _ | a <;>
      rcases hB : config.price_below with _ | b' <;>
      simp only [check_price_threshold_alerts, check_price_above,
        check_price_below, hA, hB] <;>
      first | (split_ifs <;> simp_all) | simp_all
  · rcases hA : config.price_above with _ | a <;>
      rcases hB : config.price_below with _ | b' <;>
      simp only [check_price_threshold_alerts, check_price_above,
        check_price_below, hA, hB] <;>
      first | (split_ifs <;> simp_all) | simp_all
  · intro b hb
    revert hb
    rcases hA : config.price_above with _ | a <;>
      simp only [check_price_above, hA] <;>
      first | (split_ifs <;> simp_all) | simp_all
  · intro b hb
    revert hb
    rcases hB : config.price_below with _ | b' <;>
      simp only [check_price_below, hB] <;>
      first | (split_ifs <;> simp_all) | simp_all
  · simp only [check_price_change_alert]; split_ifs <;> simp_all
  · simp only [check_price_change_alert]; split_ifs <;> simp_all
  · intro b hb
    revert hb
    simp only [check_price_change_alert]
    split_ifs <;> simp_all

/-- Witness for `delivery_failure_preserves_cooldown` at a concrete input. -/
theorem delivery_failure_preserves_cooldown_witness :
    (check_spread_alert [some 100, some 104] cfgC2 stC2 false 99999).2 = stC2 :=
  (delivery_failure_preserves_cooldown [some 100, some 104] 102 cfgC2 stC2
    99999).2.1


/-- On every path of `check_price_change_alert` the stored history becomes
the appended-and-trimmed `updatedHistory`. -/
theorem check_price_change_alert_history (avg_price : ℚ) (config : AlertConfig)
    (state : AlertState) (b : Bool) (now : ℚ) :
    (check_price_change_alert avg_price config state b now).2.price_history =
      updatedHistory state.price_history now avg_price config.price_change_window := by
  simp only [check_price_change_alert]
  split_ifs <;> rfl

/-- C4 counterexample: with window 10 at `now = 100`, the history entry at
timestamp `90 = now - window` is not strictly older than `now - window`,
yet the trim drops it (only the fresh sample remains) and the rule cannot
fire although the change from 100 to 200 is far above the 2% threshold with
no cooldown pending. -/
theorem change_window_boundary_counterexample :
    ¬ ((90 : ℚ) < 100 - 10)
    ∧ (check_price_change_alert 200
        { price_change_window := 10, cooldown_seconds := 0 }
        { price_history := [(90, 100)] } true 100).2.price_history = [(100, 200)]
    ∧ (check_price_change_alert 200
        { price_change_window := 10, cooldown_seconds := 0 }
        { price_history := [(90, 100)] } true 100).1 = false := by
  refine ⟨by norm_num, ?_, ?_⟩ <;>
    norm_num [check_price_change_alert, updatedHistory, List.filter_cons,
      List.filter_nil, decide_eq_true_eq, List.headI]

/-- C4 amended: the retained history consists of exactly the appended
samples with timestamp strictly greater than `now - window` (so an entry
exactly at the boundary is dropped too), and the rule fires exactly when at
least two samples remain, the percent change from the oldest retained price
reaches the threshold in absolute value, the cooldown has elapsed, and the
sink accepted the message. -/
theorem change_window_trim_amended (avg_price : ℚ) (config : AlertConfig)
    (state : AlertState) (b : Bool) (now : ℚ) :
    (∀ tp, tp ∈ (check_price_change_alert avg_price config state b now).2.price_history ↔
      (tp ∈ state.price_history ++ [(now, avg_price)]
        ∧ now - config.price_change_window < tp.1))
    ∧ ((check_price_change_alert avg_price config state b now).1 = true ↔
        (2 ≤ (updatedHistory state.price_history now avg_price
            config.price_change_window).length
         ∧ config.price_change_pct ≤
            |(avg_price - (updatedHistory state.price_history now avg_price
                config.price_change_window).headI.2) /
              (updatedHistory state.price_history now avg_price
                config.price_change_window).headI.2 * 100|
         ∧ config.cooldown_seconds ≤ now - state.last_price_change_alert
         ∧ b = true)) := by
  constructor
  · intro tp
    rw [check_price_change_alert_history]
    unfold updatedHistory
    rw [List.mem_filter]
    simp [decide_eq_true_eq]
  · simp only [check_price_change_alert]
    split_ifs with h1 h2 h3 h4
    · exact iff_of_false (by simp) (fun h => absurd h.1 (by omega))
    · exact iff_of_false (by simp) (fun h => absurd h.2.1 (by linarith))
    · exact iff_of_false (by simp) (fun h => absurd h.2.2.1 (by linarith))
    · exact iff_of_true rfl ⟨by omega, by linarith, by linarith, h4⟩
    · exact iff_of_false (by simp) (fun h => absurd h.2.2.2 h4)

/-- Witness for `change_window_trim_amended`: the concrete firing of the
boundary counterexample's configuration once a second in-window sample
exists. -/
theorem change_window_trim_amended_witness :
    (check_price_change_alert 200
      { price_change_window := 10, cooldown_seconds := 0 }
      { price_history := [(95, 100)] } true 100).1 = true :=
  (change_window_trim_amended 200
    { price_change_window := 10, cooldown_seconds := 0 }
    { price_history := [(95, 100)] } true 100).2.mpr
    (by norm_num [updatedHistory, List.filter_cons, List.filter_nil,
      decide_eq_true_eq, List.headI])

/-- C10: every call to `check_price_change_alert` — firing or not, delivery
succeeding or not — rewrites the stored history to the old history plus the
current `(now, avg_price)` sample, trimmed to timestamps strictly newer than
`now - window`; with a positive window and time moving forward the result is
non-empty, ends with the current sample, retains exactly the strictly-newer
samples, and remains non-decreasing in timestamp. -/
theorem price_history_invariant (avg_price : ℚ) (config : AlertConfig)
    (state : AlertState) (b : Bool) (now : ℚ)
    (hw : 0 < config.price_change_window)
    (hle : ∀ tp ∈ state.price_history, tp.1 ≤ now)
    (hmono : state.price_history.Pairwise (fun x y => x.1 ≤ y.1)) :
    (check_price_change_alert avg_price config state b now).2.price_history =
      (state.price_history ++ [(now, avg_price)]).filter
        (fun tp => decide (now - config.price_change_window < tp.1))
    ∧ (check_price_change_alert avg_price config state b now).2.price_history ≠ []
    ∧ (check_price_change_alert avg_price config state b now).2.price_history.getLast?
        = some (now, avg_price)
    ∧ (∀ tp ∈ (check_price_change_alert avg_price config state b now).2.price_history,
        now - config.price_change_window < tp.1)
    ∧ (check_price_change_alert avg_price config state b now).2.price_history.Pairwise
        (fun x y => x.1 ≤ y.1) := by
  have hh := check_price_change_alert_history avg_price config state b now
  have hcur : (decide (now - config.price_change_window < now)) = true := by
    simp only [decide_eq_true_eq]
    linarith
  have hsplit : updatedHistory state.price_history now avg_price
      config.price_change_window
      = state.price_history.filter
          (fun tp => decide (now - config.price_change_window < tp.1))
        ++ [(now, avg_price)] := by
    unfold updatedHistory
    rw [List.filter_append]
    simp only [List.filter_cons, List.filter_nil, hcur, if_true]
  have happ : (state.price_history ++ [(now, avg_price)]).Pairwise
      (fun x y => x.1 ≤ y.1) := by
    rw [List.pairwise_append]
    refine ⟨hmono, List.pairwise_singleton _ _, ?_⟩
    intro x hx y hy
    rw [List.mem_singleton] at hy
    rw [hy]
    exact hle x hx
  refine ⟨by rw [hh]; rfl, ?_, ?_, ?_, ?_⟩
  · rw [hh, hsplit]
    simp
  · rw [hh, hsplit]
    simp
  · intro tp htp
    rw [hh] at htp
    unfold updatedHistory at htp
    rcases List.mem_filter.1 htp with ⟨-, hdec⟩
    exact of_decide_eq_true hdec
  · rw [hh]
    unfold updatedHistory
    exact List.Pairwise.sublist (List.filter_sublist _) happ

/-- Witness for `price_history_invariant` at a concrete state. -/
theorem price_history_invariant_witness :
    (check_price_change_alert 102 {} { price_history := [(5, 100)] } false
      200).2.price_history.getLast? = some (200, 102) :=
  (price_history_invariant 102 {} { price_history := [(5, 100)] } false 200
    (by norm_num) (by simp; norm_num) (by simp)).2.2.1


/-- C5 counterexample: a cycle in which all three providers fail produces no
CSV row at all — `run_continuous_monitoring` skips the append (and the alert
monitor skips the whole evaluation), contradicting "a snapshot is still
created and recorded". -/
theorem no_data_cycle_counterexample :
    run_continuous_monitoring_row [none, none, none] = none
    ∧ run_alert_monitor_processed [none, none, none] = false := by
  constructor <;> rfl

/-- C5 amended: with 0 valid prices the statistics are indeed all absent,
but the cycle is skipped rather than recorded: no CSV row is appended and
the alert loop does not process the cycle. -/
theorem no_data_cycle_amended (prices : List (Option ℚ))
    (h : validPrices prices = []) :
    append_to_csv_stats prices = (none, none, none)
    ∧ run_continuous_monitoring_row prices = none
    ∧ run_alert_monitor_processed prices = false := by
  refine ⟨?_, ?_, ?_⟩ <;>
    simp [append_to_csv_stats, run_continuous_monitoring_row,
      run_alert_monitor_processed, h, pyTruthy]

/-- Witness for `no_data_cycle_amended`. -/
theorem no_data_cycle_amended_witness :
    run_continuous_monitoring_row [none, none] = none :=
  (no_data_cycle_amended [none, none] rfl).2.1

/-- C6 counterexample: with exactly one valid price the CSV row does leave
spread and spread_pct blank, but the alert-monitor loop computes
`spread_pct = 0` — a number, surfaced in its display line and status
updates, not an absent value. -/
theorem single_price_spread_pct_counterexample :
    run_alert_monitor_spread_pct (validPrices [some 100, none, none]) = 0
    ∧ append_to_csv_cells [some 100, none, none] = (some 100, none, none) := by
  constructor
  · rfl
  · norm_num [append_to_csv_cells, append_to_csv_stats, validPrices,
      qmean, listMax, listMin, csvCell, pyTruthy, List.filterMap_cons, id_eq,
      List.sum_cons, List.sum_nil]

/-- C6 amended: for exactly one valid price `p` the average is `p`; in the
CSV row spread and spread_pct are blank (and the average cell is blank too
when `p` is exactly 0, by the blank-when-zero formatting); the alert monitor
however computes `spread_pct = 0` rather than leaving it absent. -/
theorem single_price_stats_amended (prices : List (Option ℚ)) (p : ℚ)
    (h : validPrices prices = [p]) :
    qmean (validPrices prices) = p
    ∧ append_to_csv_stats prices = (some p, none, none)
    ∧ append_to_csv_cells prices =
        ((if p = 0 then none else some p), none, none)
    ∧ run_alert_monitor_spread_pct (validPrices prices) = 0 := by
  have hm1 : qmean [p] = p := by
    simp [qmean]
  have hm : qmean (validPrices prices) = p := by
    rw [h, hm1]
  refine ⟨hm, ?_, ?_, ?_⟩
  · simp [append_to_csv_stats, h, hm1, pyTruthy]
  · by_cases hp : p = 0
    · subst hp
      simp [append_to_csv_cells, append_to_csv_stats, csvCell, h, hm1,
        pyTruthy]
    · simp [append_to_csv_cells, append_to_csv_stats, csvCell, h, hm1,
        pyTruthy, hp]
  · rw [h]
    rfl

/-- Witness for `single_price_stats_amended`. -/
theorem single_price_stats_amended_witness :
    append_to_csv_cells [some 100, none, none] = (some 100, none, none) := by
  have h := (single_price_stats_amended [some 100, none, none] 100 rfl).2.2.1
  rw [h]
  norm_num


/-- C7 counterexample: an asset symbol absent from the CoinGecko table is
not rejected — the code falls back to the lowercased symbol itself as the
request identifier; an unmapped quote currency on Binance is not rejected —
the code substitutes the default suffix `"USDT"`.  The `_spec` functions
are the failing normalizations the spec describes, and disagree. -/
theorem normalization_fallback_counterexample :
    coingecko_coin_id "pepe" = "pepe"
    ∧ coingecko_coin_id_spec "pepe" = none
    ∧ binance_quote "jpy" = "USDT"
    ∧ binance_quote_spec "jpy" = none := by
  refine ⟨?_, ?_, ?_, ?_⟩ <;> decide

/-- C7 amended: a symbol outside `COINGECKO_SYMBOL_MAP` falls back to its
lowercased self as the CoinGecko id, and a quote currency outside
`BINANCE_QUOTE_MAP` defaults to the `"USDT"` suffix — normalization never
fails; only the live response can reject the pair. -/
theorem normalization_fallback_amended (symbol base_currency : String)
    (hs : COINGECKO_SYMBOL_MAP.lookup (strLower symbol) = none)
    (hb : BINANCE_QUOTE_MAP.lookup (strLower base_currency) = none) :
    coingecko_coin_id symbol = strLower symbol
    ∧ binance_quote base_currency = "USDT" := by
  constructor
  · simp [coingecko_coin_id, hs]
  · simp [binance_quote, hb]

/-- Witness for `normalization_fallback_amended`. -/
theorem normalization_fallback_amended_witness :
    coingecko_coin_id "xmr" = "xmr" ∧ binance_quote "chf" = "USDT" := by
  have h := normalization_fallback_amended "xmr" "chf" (by decide) (by decide)
  exact ⟨h.1, h.2⟩

/-- C8 counterexample: a configured status interval of zero does not
disable the status rule — at `now = 5` with the last update at 0 the update
fires (given delivery succeeds), where the claim says it must never fire. -/
theorem status_zero_interval_counterexample :
    (send_status_update { status_interval := some 0 } {} true 5).1 = true := by
  norm_num [send_status_update]

/-- C8 amended: the status rule is disabled only by an absent (`None`)
interval; with a configured interval (zero included) it fires, given a
successful send, exactly when the time since the last status broadcast has
reached the interval. -/
theorem status_rule_amended (config : AlertConfig) (state : AlertState)
    (b : Bool) (now si : ℚ) :
    (config.status_interval = none →
      (send_status_update config state b now).1 = false)
    ∧ (config.status_interval = some si →
        ((send_status_update config state true now).1 = true ↔
          si ≤ now - state.last_status_update)) := by
  constructor
  · intro h
    simp [send_status_update, h]
  · intro h
    simp only [send_status_update, h]
    split_ifs with h1
    · exact iff_of_false (by simp) (by linarith)
    · exact iff_of_true rfl (by linarith)

/-- Witness for `status_rule_amended`. -/
theorem status_rule_amended_witness :
    (send_status_update { status_interval := some 60 } {} true 60).1 = true :=
  ((status_rule_amended { status_interval := some 60 } {} true 60 60).2
    rfl).mpr (by norm_num)


/-- C9: a statistic whose computed value is exactly 0 is written blank in
the CSV row: the cell of a zero value is blank in general; identical prices
across ≥ 2 providers give blank spread and spread_pct cells; an average of
exactly 0 gives a blank average cell. -/
theorem zero_stats_blank_in_csv :
    csvCell (some 0) = none
    ∧ (∀ (prices : List (Option ℚ)) (p : ℚ),
        2 ≤ (validPrices prices).length →
        (∀ x ∈ validPrices prices, x = p) →
        (append_to_csv_cells prices).2.1 = none
          ∧ (append_to_csv_cells prices).2.2 = none)
    ∧ (∀ prices : List (Option ℚ), validPrices prices ≠ [] →
        qmean (validPrices prices) = 0 →
        (append_to_csv_cells prices).1 = none) := by
  refine ⟨by simp [csvCell, pyTruthy], ?_, ?_⟩
  · intro prices p h2 hsame
    have hne : validPrices prices ≠ [] := by
      intro hx
      rw [hx] at h2
      simp at h2
    have hmax : listMax (validPrices prices) = p := hsame _ (listMax_mem hne)
    have hmin : listMin (validPrices prices) = p := hsame _ (listMin_mem hne)
    simp only [append_to_csv_cells, append_to_csv_stats]
    rw [if_pos h2, hmax, hmin]
    simp [csvCell, pyTruthy]
  · intro prices hne h0
    simp [append_to_csv_cells, append_to_csv_stats, csvCell, pyTruthy,
      hne, h0]

/-- Witness for `zero_stats_blank_in_csv`: two providers at the identical
price 100 leave both the spread and spread_pct cells blank. -/
theorem zero_stats_blank_in_csv_witness :
    (append_to_csv_cells [some 100, some 100]).2.1 = none
    ∧ (append_to_csv_cells [some 100, some 100]).2.2 = none :=
  zero_stats_blank_in_csv.2.1 [some 100, some 100] 100 (by decide) (by decide)

end CryptoPrices
